import Mathlib

/-!
Shallow embedding of `src/lecker/cli.py`.

The repository is a thin CLI over an external crawling library (crawl4ai).
The library itself is out of scope; its behaviour on a given URL is a
parameter of the embedding (`DelegateBehavior`): either it raises an
exception carrying a message, or it returns `result.markdown`, an optional
markdown string.  Likewise the two external subprocesses invoked by the
`setup` command (`playwright install chrome` and `crawl4ai-setup`) are
parameters (`SubprocessOutcome`).

Python string truthiness, the scheme check of line 61, the stdout/stderr
redirection of `crawl_webpage`, and the exact printed messages are all
modelled from the source.
-/

namespace Lecker

/-- Character-list prefix test, the meaning of Python `s.startswith(pre)`
for one candidate string. -/
def charsStartWith : List Char → List Char → Bool
  | [], _ => true
  | _ :: _, [] => false
  | p :: ps, c :: cs => p == c && charsStartWith ps cs

/-- Python `url.startswith(pre)` on whole strings. -/
def strStartsWith (s pre : String) : Bool :=
  charsStartWith pre.data s.data

/-- Lines 61-62 of `fetch`: "Ensure URL has http:// or https:// prefix".
`if not url.startswith(("http://", "https://")): url = f"https://{url}"`. -/
def normalize_url (url : String) : String :=
  if strStartsWith url "http://" || strStartsWith url "https://" then url
  else "https://" ++ url

/-- What one call into the crawling library does: either the awaited crawl
raises an exception carrying a message, or it completes and yields
`result.markdown`, which is `None` (absence) or a markdown string. -/
inductive CrawlOutcome where
  | raises (msg : String)
  | returns (markdown : Option String)
deriving DecidableEq

/-- The external crawling delegate, as a parameter of the embedding: for each
URL, the outcome of the crawl and the log text the library writes to the
process stdout and stderr while crawling. -/
structure DelegateBehavior where
  outcome : String → CrawlOutcome
  logsOut : String → String
  logsErr : String → String

/-- The observable effect of one `crawl_webpage` call: the outcome handed
back to the caller, the log text that reached the real stdout/stderr, and
the log text captured into the in-memory `io.StringIO` buffers. -/
structure CrawlEffect where
  result : CrawlOutcome
  realStdout : String
  realStderr : String
  capturedStdout : String
  capturedStderr : String
deriving DecidableEq

/-- Lines 17-46: `crawl_webpage(url, verbose)`.  In verbose mode the crawl
runs with the real streams; otherwise `contextlib.redirect_stdout` and
`redirect_stderr` send everything the library writes into `StringIO`
buffers, which are discarded.  Either way the function returns
`result.markdown` of the awaited `crawler.arun(url=url)`. -/
def crawl_webpage (d : DelegateBehavior) (url : String) (verbose : Bool) :
    CrawlEffect :=
  if verbose then
    { result := d.outcome url
      realStdout := d.logsOut url
      realStderr := d.logsErr url
      capturedStdout := ""
      capturedStderr := "" }
  else
    { result := d.outcome url
      realStdout := ""
      realStderr := ""
      capturedStdout := d.logsOut url
      capturedStderr := d.logsErr url }

/-- Python truthiness of the `Optional[str]` result tested by the walrus
`if result := asyncio.run(...)`: `None` and `""` are falsy. -/
def truthy : Option String → Bool
  | none => false
  | some s => !(s == "")

/-- Observable result of running one CLI command to completion: the URL that
was handed to the delegate, everything printed to stdout and stderr, and the
process exit code. -/
structure ProcResult where
  requestedUrl : String
  stdout : String
  stderr : String
  exitCode : Nat
deriving DecidableEq

/-- Lines 49-71: the `fetch` command.  Normalizes the URL, runs
`crawl_webpage`, prints a truthy result, prints the sentinel `"sad"` on a
falsy result, and on any exception prints `Error fetching {url}: {e}` to
stderr and calls `sys.exit(1)`.  A normal return exits the process with
code 0. -/
def fetch (d : DelegateBehavior) (url : String) (verbose : Bool) : ProcResult :=
  let nurl := normalize_url url
  let eff := crawl_webpage d nurl verbose
  match eff.result with
  | CrawlOutcome.raises msg =>
      { requestedUrl := nurl
        stdout := eff.realStdout
        stderr := eff.realStderr ++ ("Error fetching " ++ nurl ++ ": " ++ msg ++ "\n")
        exitCode := 1 }
  | CrawlOutcome.returns md =>
      if truthy md then
        { requestedUrl := nurl
          stdout := eff.realStdout ++ (md.getD "" ++ "\n")
          stderr := eff.realStderr
          exitCode := 0 }
      else
        { requestedUrl := nurl
          stdout := eff.realStdout ++ "sad\n"
          stderr := eff.realStderr
          exitCode := 0 }

/-- Modelled from the spec: the data model speaks of a URL "optionally
missing a scheme".  A generic URL scheme is a leading ASCII letter followed
by letters, digits, or one of plus, minus, dot, terminated by a colon.
This predicate follows the spec wording and exists only to be compared with
the source's check, which tests for the two literal strings `http://` and
`https://`. -/
def isSchemeTailChar (c : Char) : Bool :=
  c.isAlphanum || c == '+' || c == '-' || c == '.'

/-- Scans the characters after the leading letter of a candidate scheme,
accepting when a colon terminates a run of scheme characters. -/
def schemeTail : List Char → Bool
  | [] => false
  | c :: cs => if c == ':' then true else isSchemeTailChar c && schemeTail cs

/-- Modelled from the spec: whether a URL string begins with a scheme. -/
def hasScheme (s : String) : Bool :=
  match s.data with
  | [] => false
  | c :: cs => c.isAlpha && schemeTail cs

/-- Outcome of one `subprocess.run([...], check=True, capture_output=True)`
call: normal completion carrying the captured stdout and stderr, a
`subprocess.CalledProcessError` (non-zero exit, `check=True`) carrying the
captured streams, or a `FileNotFoundError` (the executable is absent). -/
inductive SubprocessOutcome where
  | success (out : String) (err : String)
  | calledProcessError (out : String) (err : String)
  | fileNotFoundError
deriving DecidableEq

/-- Whether a subprocess invocation completed normally. -/
def SubprocessOutcome.isSuccess : SubprocessOutcome → Bool
  | SubprocessOutcome.success _ _ => true
  | _ => false

/-- The environment the `setup` command runs in, as a parameter of the
embedding: `which` is `shutil.which` restricted to a found/not-found answer,
and the two fields give what each external executable would do if invoked. -/
structure SetupEnv where
  which : String → Bool
  playwrightInstall : SubprocessOutcome
  crawl4aiSetup : SubprocessOutcome

/-- Lines 82-89: the known install paths searched for a browser binary. -/
def chrome_paths : List String :=
  ["chrome", "google-chrome", "chromium", "chromium-browser",
   "/Applications/Google Chrome.app/Contents/MacOS/Google Chrome",
   "/Applications/Chromium.app/Contents/MacOS/Chromium"]

/-- Line 90: `chrome_found = any(shutil.which(path) for path in chrome_paths)`. -/
def chrome_found (which : String → Bool) : Bool :=
  chrome_paths.any which

/-- Lines 108-120: the diagnostic text the `CalledProcessError` handler
prints to stderr, around the captured stderr of the failed subprocess. -/
def calledProcessErrorText (subStderr : String) : String :=
  "Error: Setup failed!\n" ++ "\nError details:\n" ++ subStderr ++ "\n" ++
    "\nPossible solutions:\n" ++
    "1. Ensure crawl4ai is properly installed in your environment\n" ++
    "2. Try running \x27poetry install\x27 again\n" ++
    "3. Check if you have proper permissions to install dependencies\n"

/-- Lines 123-129: the diagnostic text the `FileNotFoundError` handler
prints to stderr. -/
def fileNotFoundErrorText : String :=
  "Error: crawl4ai-setup command not found!\n" ++
    "\nPossible solutions:\n" ++
    "1. Make sure you\x27re in the poetry environment (run \x27poetry shell\x27)\n" ++
    "2. Try reinstalling dependencies with \x27poetry install\x27\n"

/-- Observable result of one `setup` run: which external executables were
invoked, everything printed, and the process exit code. -/
structure SetupResult where
  invokedPlaywright : Bool
  invokedCrawl4aiSetup : Bool
  exitCode : Nat
  stdout : String
  stderr : String
deriving DecidableEq

/-- Lines 102-106 plus the handlers: run `crawl4ai-setup` and finish the
command.  `invokedPw` and `priorOut` record what already happened before
this point of the `try` body. -/
def runCrawl4aiSetup (env : SetupEnv) (invokedPw : Bool) (priorOut : String) :
    SetupResult :=
  match env.crawl4aiSetup with
  | SubprocessOutcome.success out _ =>
      { invokedPlaywright := invokedPw
        invokedCrawl4aiSetup := true
        exitCode := 0
        stdout := priorOut ++ "Setup completed successfully!\n" ++ (out ++ "\n")
        stderr := "" }
  | SubprocessOutcome.calledProcessError _ err =>
      { invokedPlaywright := invokedPw
        invokedCrawl4aiSetup := true
        exitCode := 1
        stdout := priorOut
        stderr := calledProcessErrorText err }
  | SubprocessOutcome.fileNotFoundError =>
      { invokedPlaywright := invokedPw
        invokedCrawl4aiSetup := true
        exitCode := 1
        stdout := priorOut
        stderr := fileNotFoundErrorText }

/-- Lines 74-130: the `setup` command.  If no browser binary is found among
`chrome_paths`, `playwright install chrome` runs first; a
`CalledProcessError` or `FileNotFoundError` from it is caught by the
handlers and exits with code 1 without reaching `crawl4ai-setup`.
Otherwise `crawl4ai-setup` runs, with the same two handlers.  A normal
return exits the process with code 0. -/
def setup (env : SetupEnv) : SetupResult :=
  if chrome_found env.which then
    runCrawl4aiSetup env false ""
  else
    match env.playwrightInstall with
    | SubprocessOutcome.success _ _ =>
        runCrawl4aiSetup env true
          ("Chrome not found. Installing Chrome via Playwright...\n" ++
            "Chrome installation completed!\n")
    | SubprocessOutcome.calledProcessError _ err =>
        { invokedPlaywright := true
          invokedCrawl4aiSetup := false
          exitCode := 1
          stdout := "Chrome not found. Installing Chrome via Playwright...\n"
          stderr := calledProcessErrorText err }
    | SubprocessOutcome.fileNotFoundError =>
        { invokedPlaywright := true
          invokedCrawl4aiSetup := false
          exitCode := 1
          stdout := "Chrome not found. Installing Chrome via Playwright...\n"
          stderr := fileNotFoundErrorText }

/-! ### Concrete delegate behaviours used to instantiate the theorems. -/

/-- A delegate whose crawl raises an exception with message `boom`. -/
def raisingDelegate : DelegateBehavior :=
  ⟨fun _ => CrawlOutcome.raises "boom", fun _ => "", fun _ => ""⟩

/-- A delegate whose crawl completes but yields `None` for the markdown. -/
def absentDelegate : DelegateBehavior :=
  ⟨fun _ => CrawlOutcome.returns none, fun _ => "", fun _ => ""⟩

/-- A delegate whose crawl completes with an empty markdown string. -/
def emptyDelegate : DelegateBehavior :=
  ⟨fun _ => CrawlOutcome.returns (some ""), fun _ => "", fun _ => ""⟩

/-- A delegate whose crawl completes with markdown content and writes log
text on both streams while crawling. -/
def helloDelegate : DelegateBehavior :=
  ⟨fun _ => CrawlOutcome.returns (some "# Hello"), fun _ => "crawl log\n",
    fun _ => "crawl warnings\n"⟩

/-! ### Helper lemmas shared by the claim theorems. -/

/-- The outcome `crawl_webpage` hands back is the delegate's outcome on the
requested URL, in both verbosity modes. -/
theorem crawl_webpage_result (d : DelegateBehavior) (url : String)
    (verbose : Bool) : (crawl_webpage d url verbose).result = d.outcome url := by
  cases verbose <;> rfl

/-- The exception branch of `fetch`, lines 69-71. -/
theorem fetch_raises (d : DelegateBehavior) (url msg : String) (verbose : Bool)
    (h : d.outcome (normalize_url url) = CrawlOutcome.raises msg) :
    fetch d url verbose =
      { requestedUrl := normalize_url url
        stdout := (crawl_webpage d (normalize_url url) verbose).realStdout
        stderr := (crawl_webpage d (normalize_url url) verbose).realStderr ++
          ("Error fetching " ++ normalize_url url ++ ": " ++ msg ++ "\n")
        exitCode := 1 } := by
  simp only [fetch, crawl_webpage_result, h]

/-- The falsy-result branch of `fetch`, line 68. -/
theorem fetch_returns_falsy (d : DelegateBehavior) (url : String)
    (md : Option String) (verbose : Bool)
    (h : d.outcome (normalize_url url) = CrawlOutcome.returns md)
    (ht : truthy md = false) :
    fetch d url verbose =
      { requestedUrl := normalize_url url
        stdout := (crawl_webpage d (normalize_url url) verbose).realStdout ++ "sad\n"
        stderr := (crawl_webpage d (normalize_url url) verbose).realStderr
        exitCode := 0 } := by
  simp only [fetch, crawl_webpage_result, h]
  simp [ht]

/-- The truthy-result branch of `fetch`, line 66. -/
theorem fetch_returns_truthy (d : DelegateBehavior) (url : String)
    (md : Option String) (verbose : Bool)
    (h : d.outcome (normalize_url url) = CrawlOutcome.returns md)
    (ht : truthy md = true) :
    fetch d url verbose =
      { requestedUrl := normalize_url url
        stdout := (crawl_webpage d (normalize_url url) verbose).realStdout ++
          (md.getD "" ++ "\n")
        stderr := (crawl_webpage d (normalize_url url) verbose).realStderr
        exitCode := 0 } := by
  simp only [fetch, crawl_webpage_result, h]
  simp [ht]

/-- Every branch of `fetch` hands the normalized URL to the delegate. -/
theorem fetch_requestedUrl (d : DelegateBehavior) (url : String)
    (verbose : Bool) : (fetch d url verbose).requestedUrl = normalize_url url := by
  cases h : d.outcome (normalize_url url) with
  | raises msg => rw [fetch_raises d url msg verbose h]
  | returns md =>
      cases ht : truthy md with
      | false => rw [fetch_returns_falsy d url md verbose h ht]
      | true => rw [fetch_returns_truthy d url md verbose h ht]

/-- Appending strings concatenates their character lists. -/
theorem string_data_append (a b : String) : (a ++ b).data = a.data ++ b.data := rfl

/-- A string whose right appendee has characters is not empty. -/
theorem append_right_ne_empty (a b : String) (h : b.data ≠ []) : a ++ b ≠ "" := by
  intro hc
  apply h
  have hd : a.data ++ b.data = ([] : List Char) := by
    rw [← string_data_append, hc]
  exact (List.append_eq_nil.mp hd).2

/-- Characters survive on the right of a list-level append. -/
theorem data_append_ne_nil_right (a b : String) (h : b.data ≠ []) :
    (a ++ b).data ≠ [] := by
  rw [string_data_append]
  intro hc
  exact h (List.append_eq_nil.mp hc).2

/-- The `CalledProcessError` diagnostic text is never empty. -/
theorem cpe_text_ne_empty (e : String) : calledProcessErrorText e ≠ "" := by
  unfold calledProcessErrorText
  apply append_right_ne_empty
  decide

/-- The `FileNotFoundError` diagnostic text is never empty. -/
theorem fnf_text_ne_empty : fileNotFoundErrorText ≠ "" := by
  unfold fileNotFoundErrorText
  apply append_right_ne_empty
  decide

/-! ### Claim theorems. -/

/-- C1: for every URL and every exception raised by the crawling delegate
during the fetch command, the exception is caught, the error message naming
the URL and the exception text is printed to standard error, and the
process exits with code 1. -/
theorem C1_fetch_catches_delegate_exception
    (d : DelegateBehavior) (url msg : String) (verbose : Bool)
    (h : d.outcome (normalize_url url) = CrawlOutcome.raises msg) :
    (fetch d url verbose).exitCode = 1 ∧
    (fetch d url verbose).stderr =
      (crawl_webpage d (normalize_url url) verbose).realStderr ++
        ("Error fetching " ++ normalize_url url ++ ": " ++ msg ++ "\n") ∧
    (fetch d url verbose).stderr ≠ "" := by
  rw [fetch_raises d url msg verbose h]
  refine ⟨rfl, rfl, ?_⟩
  apply append_right_ne_empty
  apply data_append_ne_nil_right
  decide

/-- C1 witness: a delegate raising `boom` on a concrete URL. -/
theorem C1_fetch_catches_delegate_exception_witness :
    (fetch raisingDelegate "example.com" false).exitCode = 1 ∧
    (fetch raisingDelegate "example.com" false).stderr =
      (crawl_webpage raisingDelegate (normalize_url "example.com") false).realStderr ++
        ("Error fetching " ++ normalize_url "example.com" ++ ": " ++ "boom" ++ "\n") ∧
    (fetch raisingDelegate "example.com" false).stderr ≠ "" :=
  C1_fetch_catches_delegate_exception raisingDelegate "example.com" "boom" false rfl

/-- C2 counterexample: the input "ftp://example.com" begins with a scheme,
yet the URL handed to the delegate is not the input unchanged: the source
tests only for the literal prefixes http:// and https://, so it prepends
https:// to an ftp URL. -/
theorem C2_scheme_counterexample :
    hasScheme "ftp://example.com" = true ∧
    (fetch absentDelegate "ftp://example.com" false).requestedUrl =
      "https://ftp://example.com" ∧
    "https://ftp://example.com" ≠ "ftp://example.com" := by decide

/-- C2 (amended): the URL handed to the delegate is the input unchanged
exactly when the input begins with the literal prefix http:// or https://;
any other input, a different scheme included, is prefixed with https://. -/
theorem C2_amended_url_normalization
    (d : DelegateBehavior) (url : String) (verbose : Bool) :
    ((strStartsWith url "http://" = true ∨ strStartsWith url "https://" = true) →
      (fetch d url verbose).requestedUrl = url) ∧
    (strStartsWith url "http://" = false → strStartsWith url "https://" = false →
      (fetch d url verbose).requestedUrl = "https://" ++ url) := by
  rw [fetch_requestedUrl]
  unfold normalize_url
  constructor
  · rintro (h | h) <;> simp [h]
  · intro h1 h2
    simp [h1, h2]

/-- C2 amended witness: a bare host gains the https:// prefix. -/
theorem C2_amended_url_normalization_witness :
    (fetch absentDelegate "example.com" false).requestedUrl =
      "https://" ++ "example.com" :=
  (C2_amended_url_normalization absentDelegate "example.com" false).2
    (by decide) (by decide)



/-- C3: setup exits with code 0 when every external subprocess it invokes
succeeds, exits with code 1 when an invoked one fails, and uses no other
exit code; the installer counts only when it is invoked, which happens
exactly when no browser is found. -/
theorem C3_setup_exit_codes (env : SetupEnv) :
    ((setup env).exitCode = 0 ↔
      ((chrome_found env.which = false → env.playwrightInstall.isSuccess = true) ∧
        env.crawl4aiSetup.isSuccess = true)) ∧
    ((setup env).exitCode = 0 ∨ (setup env).exitCode = 1) := by
  unfold setup runCrawl4aiSetup
  cases h : chrome_found env.which <;>
    cases hp : env.playwrightInstall <;>
      cases hc : env.crawl4aiSetup <;>
        simp_all [SubprocessOutcome.isSuccess]

/-- C3 witness: with a browser present and a succeeding crawl4ai-setup the
exit code is 0; with a failing crawl4ai-setup it is 1. -/
theorem C3_setup_exit_codes_witness :
    (setup ⟨fun _ => true, SubprocessOutcome.success "" "",
      SubprocessOutcome.success "ok" ""⟩).exitCode = 0 ∧
    (setup ⟨fun _ => true, SubprocessOutcome.success "" "",
      SubprocessOutcome.calledProcessError "" "bad"⟩).exitCode = 1 :=
  ⟨(C3_setup_exit_codes ⟨fun _ => true, SubprocessOutcome.success "" "",
      SubprocessOutcome.success "ok" ""⟩).1.mpr (by decide),
   (C3_setup_exit_codes ⟨fun _ => true, SubprocessOutcome.success "" "",
      SubprocessOutcome.calledProcessError "" "bad"⟩).2.resolve_left
      (fun h => by
        have := (C3_setup_exit_codes ⟨fun _ => true, SubprocessOutcome.success "" "",
          SubprocessOutcome.calledProcessError "" "bad"⟩).1.mp h
        exact absurd this.2 (by decide))⟩

/-- C4 counterexample: a delegate that completes with no usable content is a
failure case the spec maps to exit code 1, but the fetch command prints the
sentinel to stdout and the process exits with code 0. -/
theorem C4_no_content_counterexample :
    absentDelegate.outcome (normalize_url "example.com") =
      CrawlOutcome.returns none ∧
    (fetch absentDelegate "example.com" false).stdout = "sad\n" ∧
    (fetch absentDelegate "example.com" false).exitCode = 0 ∧
    (fetch absentDelegate "example.com" false).exitCode ≠ 1 := by decide

/-- C4 (amended): every exception of either command is caught at the command
boundary, printed, and exits with code 1; the fetch command's
no-usable-content case is not an error path: it prints the sentinel to
standard output and the process exits with code 0. -/
theorem C4_amended_failure_exit_codes
    (d : DelegateBehavior) (url msg : String) (verbose : Bool) (env : SetupEnv) :
    (d.outcome (normalize_url url) = CrawlOutcome.raises msg →
      (fetch d url verbose).exitCode = 1 ∧ (fetch d url verbose).stderr ≠ "") ∧
    (d.outcome (normalize_url url) = CrawlOutcome.returns none →
      (fetch d url verbose).exitCode = 0 ∧
      (fetch d url verbose).stdout =
        (crawl_webpage d (normalize_url url) verbose).realStdout ++ "sad\n") ∧
    (chrome_found env.which = false → env.playwrightInstall.isSuccess = false →
      (setup env).exitCode = 1 ∧ (setup env).stderr ≠ "") ∧
    ((chrome_found env.which = true ∨ env.playwrightInstall.isSuccess = true) →
      env.crawl4aiSetup.isSuccess = false →
      (setup env).exitCode = 1 ∧ (setup env).stderr ≠ "") := by
  refine ⟨?_, ?_, ?_, ?_⟩
  · intro h
    rw [fetch_raises d url msg verbose h]
    refine ⟨rfl, ?_⟩
    apply append_right_ne_empty
    apply data_append_ne_nil_right
    decide
  · intro h
    rw [fetch_returns_falsy d url none verbose h rfl]
    exact ⟨rfl, rfl⟩
  · intro hf hp
    unfold setup runCrawl4aiSetup
    cases h : chrome_found env.which <;>
      cases hpw : env.playwrightInstall <;>
        simp_all [SubprocessOutcome.isSuccess, cpe_text_ne_empty, fnf_text_ne_empty]
  · intro hor hc
    unfold setup runCrawl4aiSetup
    cases h : chrome_found env.which <;>
      cases hpw : env.playwrightInstall <;>
        cases hcc : env.crawl4aiSetup <;>
          simp_all [SubprocessOutcome.isSuccess, cpe_text_ne_empty, fnf_text_ne_empty]

/-- C4 amended witness: a raising delegate exits 1, an absent playwright
executable makes setup exit 1, a no-content crawl exits 0. -/
theorem C4_amended_failure_exit_codes_witness :
    (fetch raisingDelegate "example.com" false).exitCode = 1 ∧
    (setup ⟨fun _ => false, SubprocessOutcome.fileNotFoundError,
      SubprocessOutcome.success "" ""⟩).exitCode = 1 :=
  ⟨((C4_amended_failure_exit_codes raisingDelegate "example.com" "boom" false
      ⟨fun _ => false, SubprocessOutcome.fileNotFoundError,
        SubprocessOutcome.success "" ""⟩).1 rfl).1,
   ((C4_amended_failure_exit_codes raisingDelegate "example.com" "boom" false
      ⟨fun _ => false, SubprocessOutcome.fileNotFoundError,
        SubprocessOutcome.success "" ""⟩).2.2.1 (by decide) (by decide)).1⟩

/-- C5: when the delegate completes without raising but yields no usable
content, the fetch command prints the sentinel failure message. -/
theorem C5_sentinel_on_absent_content
    (d : DelegateBehavior) (url : String) (verbose : Bool)
    (h : d.outcome (normalize_url url) = CrawlOutcome.returns none) :
    (fetch d url verbose).stdout =
      (crawl_webpage d (normalize_url url) verbose).realStdout ++ "sad\n" := by
  rw [fetch_returns_falsy d url none verbose h rfl]

/-- C5 witness: the sentinel on a concrete no-content crawl. -/
theorem C5_sentinel_on_absent_content_witness :
    (fetch absentDelegate "example.com" false).stdout =
      (crawl_webpage absentDelegate (normalize_url "example.com") false).realStdout ++
        "sad\n" :=
  C5_sentinel_on_absent_content absentDelegate "example.com" false rfl

/-- C6: the installer is invoked exactly when no browser binary is found
among the known install paths, and whenever the install step succeeds or is
skipped the one-time setup executable is invoked. -/
theorem C6_setup_invocation_discipline (env : SetupEnv) :
    ((setup env).invokedPlaywright = true ↔ chrome_found env.which = false) ∧
    ((chrome_found env.which = true ∨ env.playwrightInstall.isSuccess = true) →
      (setup env).invokedCrawl4aiSetup = true) := by
  unfold setup runCrawl4aiSetup
  cases h : chrome_found env.which <;>
    cases hp : env.playwrightInstall <;>
      cases hc : env.crawl4aiSetup <;>
        simp_all [SubprocessOutcome.isSuccess]

/-- C6 witness: with a browser present the installer is skipped and the
setup executable still runs. -/
theorem C6_setup_invocation_discipline_witness :
    (setup ⟨fun _ => true, SubprocessOutcome.success "" "",
      SubprocessOutcome.success "" ""⟩).invokedCrawl4aiSetup = true :=
  (C6_setup_invocation_discipline ⟨fun _ => true, SubprocessOutcome.success "" "",
    SubprocessOutcome.success "" ""⟩).2 (Or.inl (by decide))



/-- C7 counterexample: on an empty markdown string — a markdown string all
the same — the fetch command prints the sentinel instead of writing the
returned markdown to standard output. -/
theorem C7_empty_markdown_counterexample :
    emptyDelegate.outcome (normalize_url "example.com") =
      CrawlOutcome.returns (some "") ∧
    (fetch emptyDelegate "example.com" false).stdout = "sad\n" ∧
    "sad\n" ≠ "" ++ "\n" := by decide

/-- C7 (amended): when the delegate returns a non-empty markdown string, the
fetch command writes that markdown to standard output and the process exits
with code 0. -/
theorem C7_amended_markdown_to_stdout
    (d : DelegateBehavior) (url m : String) (verbose : Bool)
    (hm : m ≠ "")
    (h : d.outcome (normalize_url url) = CrawlOutcome.returns (some m)) :
    (fetch d url verbose).stdout =
      (crawl_webpage d (normalize_url url) verbose).realStdout ++ (m ++ "\n") ∧
    (fetch d url verbose).exitCode = 0 := by
  have ht : truthy (some m) = true := by
    simp [truthy]
    exact hm
  rw [fetch_returns_truthy d url (some m) verbose h ht]
  exact ⟨rfl, rfl⟩

/-- C7 amended witness: concrete markdown reaches stdout with exit code 0. -/
theorem C7_amended_markdown_to_stdout_witness :
    (fetch helloDelegate "example.com" false).stdout =
      (crawl_webpage helloDelegate (normalize_url "example.com") false).realStdout ++
        ("# Hello" ++ "\n") ∧
    (fetch helloDelegate "example.com" false).exitCode = 0 :=
  C7_amended_markdown_to_stdout helloDelegate "example.com" "# Hello" false
    (by decide) rfl

/-- C8: a None result and an empty-string result without an exception are
handled identically: the sentinel goes to standard output and the process
exits with code 0. -/
theorem C8_empty_treated_as_none
    (d d2 : DelegateBehavior) (url : String) (verbose : Bool)
    (h : d.outcome (normalize_url url) = CrawlOutcome.returns none)
    (h2 : d2.outcome (normalize_url url) = CrawlOutcome.returns (some ""))
    (ho : d.logsOut = d2.logsOut) (he : d.logsErr = d2.logsErr) :
    fetch d url verbose = fetch d2 url verbose ∧
    (fetch d url verbose).exitCode = 0 ∧
    (fetch d url verbose).stdout =
      (crawl_webpage d (normalize_url url) verbose).realStdout ++ "sad\n" := by
  rw [fetch_returns_falsy d url none verbose h rfl,
    fetch_returns_falsy d2 url (some "") verbose h2 rfl]
  refine ⟨?_, rfl, rfl⟩
  cases verbose <;> simp [crawl_webpage, ho, he]

/-- C8 witness: the two concrete delegates produce identical runs. -/
theorem C8_empty_treated_as_none_witness :
    fetch absentDelegate "example.com" false =
      fetch emptyDelegate "example.com" false ∧
    (fetch absentDelegate "example.com" false).exitCode = 0 ∧
    (fetch absentDelegate "example.com" false).stdout =
      (crawl_webpage absentDelegate (normalize_url "example.com") false).realStdout ++
        "sad\n" :=
  C8_empty_treated_as_none absentDelegate emptyDelegate "example.com" false
    rfl rfl rfl rfl

/-- C9: for a fixed behaviour of the delegate, the value crawl_webpage hands
back is the same whether the verbose flag is true or false; the flag only
routes the log text. -/
theorem C9_result_verbose_independent (d : DelegateBehavior) (url : String) :
    (crawl_webpage d url true).result = (crawl_webpage d url false).result := rfl

/-- C10: with the verbose flag false, everything the delegate writes to
stdout or stderr is captured into the in-memory buffers and discarded, and
the fetch command's real standard output carries only the markdown result
or the sentinel message. -/
theorem C10_quiet_mode_discards_logs (d : DelegateBehavior) (url : String) :
    (crawl_webpage d url false).realStdout = "" ∧
    (crawl_webpage d url false).realStderr = "" ∧
    (crawl_webpage d url false).capturedStdout = d.logsOut url ∧
    (crawl_webpage d url false).capturedStderr = d.logsErr url ∧
    (∀ m : String, d.outcome (normalize_url url) = CrawlOutcome.returns (some m) →
      truthy (some m) = true → (fetch d url false).stdout = m ++ "\n") ∧
    (∀ md : Option String, d.outcome (normalize_url url) = CrawlOutcome.returns md →
      truthy md = false → (fetch d url false).stdout = "sad\n") := by
  refine ⟨rfl, rfl, rfl, rfl, ?_, ?_⟩
  · intro m h ht
    rw [fetch_returns_truthy d url (some m) false h ht]
    rfl
  · intro md h ht
    rw [fetch_returns_falsy d url md false h ht]
    rfl

/-- C10 witness: a logging delegate in quiet mode leaves only the markdown
on the real standard output. -/
theorem C10_quiet_mode_discards_logs_witness :
    (crawl_webpage helloDelegate "https://example.com" false).realStdout = "" ∧
    (fetch helloDelegate "example.com" false).stdout = "# Hello" ++ "\n" :=
  ⟨(C10_quiet_mode_discards_logs helloDelegate "https://example.com").1,
   (C10_quiet_mode_discards_logs helloDelegate "example.com").2.2.2.2.1
     "# Hello" rfl (by decide)⟩

end Lecker
